import Mathlib

/-!
Shallow embedding of `src/lua.go` (package `lua`, the caddy-lua HTTP
middleware module).

The Go file defines a configuration struct `Lua` with six public fields,
a `Validate` method, a `ServeHTTP` method and an `UnmarshalCaddyfile`
method driven by a caddyfile `Dispenser`.

Modelling decisions, each tied to the source:

* The six public struct fields of `Lua` (src/lua.go lines 22-31) become a
  Lean structure.  Go `int` fields are modelled as `Int` (the values come
  from `strconv.ParseInt(s, 10, 64)` followed by `int(i)`, identity on a
  64-bit platform); `bool` as `Bool`, `string` as `String`.  The private
  `logger` field is never read by any modelled code path and is omitted.

* The caddyfile `Dispenser` is third-party input plumbing.  A handler
  directive's block is modelled as a list of lines, each line a list of
  token strings whose head is the token `d.Val()` returns when `NextBlock`
  stops on it.  `d.Args(&p)` consumes exactly one following token on the
  same line (failing if none remains); `d.AllArgs(&p)` additionally fails
  when more than one token remains; `d.CountRemainingArgs()` is the number
  of following tokens on the line.  Tokens a case does not consume are
  reached by the next `NextBlock` iteration and treated as keywords, which
  the explicit cursor `cur` in `processLine` reproduces.  The outer
  `for d.Next()` loop runs once for the single `lua` directive handed to
  `parseCaddyfile` by `RegisterHandlerDirective`.

* Errors are modelled as their message strings: `d.Errf("%s: %w", field,
  err)` produces `field ++ ": " ++ err`, `d.Errf("%s: unknown configuration
  option", field)` produces `field ++ ": unknown configuration option"`,
  and `d.ArgErr()` produces the message of
  `Errf("Wrong argument count or unexpected line ending after %s", d.Val())`.

* `strconv.ParseInt(s, 10, 64)` is modelled by `goParseInt64`: optional
  sign, a nonempty run of decimal digits, value within the int64 range,
  with Go's error strings.

* `ServeHTTP` (src/lua.go lines 56-63) is modelled as a function of the
  handler value, a fresh interpreter identifier, an oracle
  `doFile : String → Option String` for the outcome of `L.DoFile` on a
  path, and the result of `next.ServeHTTP(w, r)`.  It returns the request
  error together with a trace of events: interpreter construction
  (`lua.NewState()`), script execution, the call to the next handler, and
  interpreter teardown (the deferred `L.Close()`).
-/

namespace CaddyLua

/-- The `Lua` handler struct, src/lua.go lines 22-31 (public fields). -/
structure Lua where
  CallStackSize : Int
  RegistrySize : Int
  RegistryMaxSize : Int
  RegistryGrowStep : Int
  MinimizeStackMemory : Bool
  HandlerPath : String
deriving DecidableEq, Repr

/-- The zero value of the Go struct `Lua`, as produced by `var l Lua` in
`parseCaddyfile` (src/lua.go line 130). -/
def luaZero : Lua :=
  { CallStackSize := 0, RegistrySize := 0, RegistryMaxSize := 0,
    RegistryGrowStep := 0, MinimizeStackMemory := false, HandlerPath := "" }

/-- A handler value with every tuning field set, sharing its script path
with `luaTunedB`. -/
def luaTunedA : Lua :=
  { CallStackSize := 1, RegistrySize := 2, RegistryMaxSize := 3,
    RegistryGrowStep := 4, MinimizeStackMemory := true,
    HandlerPath := "h.lua" }

/-- A handler value differing from `luaTunedA` in all five tuning fields
but sharing its script path. -/
def luaTunedB : Lua :=
  { CallStackSize := 100, RegistrySize := 200, RegistryMaxSize := 300,
    RegistryGrowStep := 400, MinimizeStackMemory := false,
    HandlerPath := "h.lua" }

/-- `Validate` (src/lua.go lines 48-53): error iff `HandlerPath` is empty. -/
def validate (l : Lua) : Option String :=
  if l.HandlerPath = "" then
    some "the handler_path configuration option is required"
  else
    none

/-- Message of Go's `strconv.ParseInt` syntax error for input `s`. -/
def parseIntSyntaxError (s : String) : String :=
  "strconv.ParseInt: parsing \"" ++ s ++ "\": invalid syntax"

/-- Message of Go's `strconv.ParseInt` range error for input `s`. -/
def parseIntRangeError (s : String) : String :=
  "strconv.ParseInt: parsing \"" ++ s ++ "\": value out of range"

/-- Whether every character of `cs` is a decimal digit. -/
def allDigits (cs : List Char) : Bool :=
  cs.all fun c => decide ('0' ≤ c) && decide (c ≤ '9')

/-- Numeric value of a digit string (most significant first). -/
def digitsToNat (cs : List Char) : Nat :=
  cs.foldl (fun a c => a * 10 + (c.toNat - 48)) 0

/-- `strconv.ParseInt(s, 10, 64)`: optional `+`/`-` sign, a nonempty run of
decimal digits, result within the int64 range. -/
def goParseInt64 (s : String) : Except String Int :=
  match s.data with
  | [] => .error (parseIntSyntaxError s)
  | c :: rest =>
    let signed : Bool × List Char :=
      if c = '-' then (true, rest)
      else if c = '+' then (false, rest)
      else (false, c :: rest)
    if signed.2.isEmpty then .error (parseIntSyntaxError s)
    else if allDigits signed.2 then
      let n := digitsToNat signed.2
      if signed.1 then
        if n ≤ 2 ^ 63 then .ok (-(n : Int)) else .error (parseIntRangeError s)
      else
        if n ≤ 2 ^ 63 - 1 then .ok (n : Int) else .error (parseIntRangeError s)
    else .error (parseIntSyntaxError s)

/-- Message of `d.ArgErr()` when the current token `d.Val()` is `v`
(without the surrounding quote characters of the Go format string). -/
def argErrMsg (v : String) : String :=
  "Wrong argument count or unexpected line ending after " ++ v

/-- The `asInt` closure of `UnmarshalCaddyfile` (src/lua.go lines 67-77):
`d.AllArgs(&s)` demands exactly one remaining argument on the line, then
`strconv.ParseInt(s, 10, 64)`.  `field` is the keyword token, `args` the
tokens following it on the line.  On an `AllArgs` failure with no argument
the dispenser still sits on the keyword; with extra arguments it sits on
the consumed first argument (`d.Prev()` inside `AllArgs`). -/
def asInt (field : String) (args : List String) : Except String Int :=
  match args with
  | [s] => goParseInt64 s
  | [] => .error (argErrMsg field)
  | a :: _ :: _ => .error (argErrMsg a)

/-- The keywords recognized by the `switch` in `UnmarshalCaddyfile`
(src/lua.go lines 81-119). -/
def recognizedKeywords : List String :=
  ["call_stack_size", "registry_size", "registry_max_size",
   "registry_grow_step", "minimize_stack_memory", "handler_path"]

/-- The iterations of the `for d.NextBlock(0)` loop of `UnmarshalCaddyfile`
(src/lua.go lines 80-123) that stay on one line of the block.  `cur` holds
the tokens of the line not yet consumed, the next `d.Val()` first.  The
`case` bodies for the four integer options and `minimize_stack_memory`
consume (or validate) the whole line, so on their success the line is
done; the `handler_path` case consumes exactly one argument via
`d.Args`, so any further tokens of the line are reached by the next
`NextBlock` iteration and dispatched as keywords, which the recursive call
reproduces.  Each error case returns the struct as mutated so far together
with the message of the returned error. -/
def processLine (l : Lua) (cur : List String) : Lua × Option String :=
  match cur with
  | [] => (l, none)
  | field :: args =>
    match field with
    | "call_stack_size" =>
      match asInt field args with
      | .error e => (l, some (field ++ ": " ++ e))
      | .ok i => ({ l with CallStackSize := i }, none)
    | "registry_size" =>
      match asInt field args with
      | .error e => (l, some (field ++ ": " ++ e))
      | .ok i => ({ l with RegistrySize := i }, none)
    | "registry_max_size" =>
      match asInt field args with
      | .error e => (l, some (field ++ ": " ++ e))
      | .ok i => ({ l with RegistryMaxSize := i }, none)
    | "registry_grow_step" =>
      match asInt field args with
      | .error e => (l, some (field ++ ": " ++ e))
      | .ok i => ({ l with RegistryGrowStep := i }, none)
    | "minimize_stack_memory" =>
      if args.length > 0 then
        (l, some (field ++ ": " ++ argErrMsg field))
      else
        (l, none)
    | "handler_path" =>
      match args with
      | [] => (l, some (field ++ ": " ++ argErrMsg field))
      | a :: restArgs => processLine { l with HandlerPath := a } restArgs
    | _ => (l, some (field ++ ": unknown configuration option"))

/-- The `for d.NextBlock(0)` loop of `UnmarshalCaddyfile` over the lines of
the block: process each line in order, returning at the first error with
the struct as mutated so far. -/
def unmarshalLines (l : Lua) (lines : List (List String)) :
    Lua × Option String :=
  match lines with
  | [] => (l, none)
  | ln :: rest =>
    match processLine l ln with
    | (l₁, none) => unmarshalLines l₁ rest
    | (l₁, some e) => (l₁, some e)

/-- `UnmarshalCaddyfile` (src/lua.go lines 66-126) on the block of the
single `lua` directive: the struct it leaves behind and the error. -/
def unmarshalCaddyfile (l : Lua) (lines : List (List String)) :
    Lua × Option String :=
  unmarshalLines l lines

/-- `parseCaddyfile` (src/lua.go lines 129-133): unmarshals into a fresh
zero-valued `Lua` and returns the struct alongside the error, whether or
not the error is nil. -/
def parseCaddyfile (lines : List (List String)) : Lua × Option String :=
  unmarshalCaddyfile luaZero lines

/-- Observable events of a single `ServeHTTP` call: interpreter
construction, script execution, delegation to the next handler, and
interpreter teardown. -/
inductive Ev where
  | newState (id : Nat)
  | doFile (id : Nat) (path : String)
  | nextCall
  | close (id : Nat)
deriving DecidableEq, Repr

/-- The interpreter-state identifier an event touches, if any. -/
def Ev.stateId : Ev → Option Nat
  | .newState i => some i
  | .doFile i _ => some i
  | .close i => some i
  | .nextCall => none

/-- `ServeHTTP` (src/lua.go lines 56-63).  `id` identifies the interpreter
state freshly constructed by `lua.NewState()`; `doFile` gives the outcome
of `L.DoFile` on a path (`some e` = error `e`); `nextRes` the result of
`next.ServeHTTP(w, r)`.  Returns the event trace (the deferred `L.Close()`
runs last on both paths) and the request-handling error. -/
def serveHTTP (l : Lua) (id : Nat) (doFile : String → Option String)
    (nextRes : Option String) : List Ev × Option String :=
  match doFile l.HandlerPath with
  | some e =>
    ([Ev.newState id, Ev.doFile id l.HandlerPath, Ev.close id], some e)
  | none =>
    ([Ev.newState id, Ev.doFile id l.HandlerPath, Ev.nextCall, Ev.close id],
     nextRes)

/-- Whether an event is a script execution (`L.DoFile`). -/
def Ev.isDoFile : Ev → Bool
  | .doFile _ _ => true
  | _ => false

/-- Helper: `processLine` never writes the `MinimizeStackMemory` field —
the `minimize_stack_memory` case of the Go `switch` (src/lua.go lines
110-113) validates the argument count and assigns nothing. -/
theorem processLine_keeps_flag (l : Lua) (cur : List String) :
    ((processLine l cur).1).MinimizeStackMemory = l.MinimizeStackMemory := by
  induction l, cur using processLine.induct <;> simp_all [processLine]

/-- Helper: the whole parse loop never writes `MinimizeStackMemory`. -/
theorem unmarshalLines_keeps_flag (lines : List (List String)) :
    ∀ l : Lua,
      ((unmarshalLines l lines).1).MinimizeStackMemory =
        l.MinimizeStackMemory := by
  induction lines with
  | nil => intro l; simp [unmarshalLines]
  | cons ln rest ih =>
    intro l
    have hp := processLine_keeps_flag l ln
    rcases hpl : processLine l ln with ⟨l₁, eo⟩
    rw [hpl] at hp
    cases eo with
    | none => rw [unmarshalLines, hpl]; rw [ih l₁]; exact hp
    | some e => rw [unmarshalLines, hpl]; exact hp

/-- Helper: a line that never mentions the token `handler_path` leaves the
`HandlerPath` field untouched. -/
theorem processLine_keeps_path (l : Lua) (cur : List String)
    (h : "handler_path" ∉ cur) :
    ((processLine l cur).1).HandlerPath = l.HandlerPath := by
  induction l, cur using processLine.induct <;> simp_all [processLine]

/-- Helper: a block that never mentions the token `handler_path` leaves the
`HandlerPath` field untouched. -/
theorem unmarshalLines_keeps_path (lines : List (List String)) :
    ∀ l : Lua, (∀ ln ∈ lines, "handler_path" ∉ ln) →
      ((unmarshalLines l lines).1).HandlerPath = l.HandlerPath := by
  induction lines with
  | nil => intro l _; simp [unmarshalLines]
  | cons ln rest ih =>
    intro l h
    have hp := processLine_keeps_path l ln (h ln (by simp))
    rcases hpl : processLine l ln with ⟨l₁, eo⟩
    rw [hpl] at hp
    cases eo with
    | none =>
      rw [unmarshalLines, hpl]
      rw [ih l₁ fun x hx => h x (by simp [hx])]
      exact hp
    | some e => rw [unmarshalLines, hpl]; exact hp

/-- Helper: the parse loop is sequential — a block whose first lines parse
cleanly continues on the remaining lines from the struct those lines
produced. -/
theorem unmarshalLines_append (xs : List (List String)) :
    ∀ (l l₁ : Lua) (ys : List (List String)),
      unmarshalLines l xs = (l₁, none) →
      unmarshalLines l (xs ++ ys) = unmarshalLines l₁ ys := by
  induction xs with
  | nil =>
    intro l l₁ ys h
    rw [unmarshalLines] at h
    cases h
    simp
  | cons ln rest ih =>
    intro l l₁ ys h
    rcases hpl : processLine l ln with ⟨l₂, eo⟩
    cases eo with
    | none =>
      rw [unmarshalLines, hpl] at h
      rw [List.cons_append, unmarshalLines, hpl]
      exact ih l₂ l₁ ys h
    | some e =>
      rw [unmarshalLines, hpl] at h
      cases h

/-- Helper: membership in the trace of a single `ServeHTTP` call — every
event is either id-less (the next-handler call) or touches exactly the
interpreter state constructed for this request. -/
theorem serveHTTP_trace_ids (l : Lua) (id : Nat)
    (doFile : String → Option String) (nextRes : Option String) :
    (serveHTTP l id doFile nextRes).1.head? = some (Ev.newState id) ∧
    (serveHTTP l id doFile nextRes).1.getLast? = some (Ev.close id) ∧
    ∀ ev ∈ (serveHTTP l id doFile nextRes).1,
      ev.stateId = none ∨ ev.stateId = some id := by
  cases hdf : doFile l.HandlerPath <;>
    simp [serveHTTP, hdf, List.getLast?, Ev.stateId]

/-- C1: the claim says ServeHTTP invokes the next handler unconditionally,
regardless of whether the script load/execution succeeded or failed.  The
code (src/lua.go lines 59-62) returns the `DoFile` error before reaching
`next.ServeHTTP`: with a failing script, the trace of the request contains
no next-handler call. -/
theorem c1_counterexample :
    Ev.nextCall ∉
      (serveHTTP { luaZero with HandlerPath := "handler.lua" } 0
        (fun _ => some "cannot open handler.lua") none).1 ∧
    (serveHTTP { luaZero with HandlerPath := "handler.lua" } 0
      (fun _ => some "cannot open handler.lua") none).2 =
      some "cannot open handler.lua" := by
  decide

/-- C1 (amended): on each request ServeHTTP loads and executes the script
at `HandlerPath`; if that fails it returns the script error without
invoking the next handler, and only if it succeeds does it invoke the next
handler and return that handler's result. -/
theorem c1_theorem (l : Lua) (id : Nat) (doFile : String → Option String)
    (nextRes : Option String) :
    (∀ e, doFile l.HandlerPath = some e →
      (serveHTTP l id doFile nextRes).2 = some e ∧
      Ev.nextCall ∉ (serveHTTP l id doFile nextRes).1) ∧
    (doFile l.HandlerPath = none →
      Ev.nextCall ∈ (serveHTTP l id doFile nextRes).1 ∧
      (serveHTTP l id doFile nextRes).2 = nextRes) := by
  constructor
  · intro e he
    simp [serveHTTP, he]
  · intro h
    simp [serveHTTP, h]

/-- C1 witness: the amended theorem applied on a failing and on a
succeeding script. -/
theorem c1_witness :
    ((serveHTTP { luaZero with HandlerPath := "a.lua" } 0
        (fun _ => some "boom") (some "nexterr")).2 = some "boom" ∧
      Ev.nextCall ∉ (serveHTTP { luaZero with HandlerPath := "a.lua" } 0
        (fun _ => some "boom") (some "nexterr")).1) ∧
    (Ev.nextCall ∈ (serveHTTP { luaZero with HandlerPath := "a.lua" } 1
        (fun _ => none) (some "nexterr")).1 ∧
      (serveHTTP { luaZero with HandlerPath := "a.lua" } 1
        (fun _ => none) (some "nexterr")).2 = some "nexterr") :=
  ⟨(c1_theorem { luaZero with HandlerPath := "a.lua" } 0
      (fun _ => some "boom") (some "nexterr")).1 "boom" rfl,
   (c1_theorem { luaZero with HandlerPath := "a.lua" } 1
      (fun _ => none) (some "nexterr")).2 rfl⟩

/-- C2: the claim says a valid config sets each of the six struct fields,
in particular that `minimize_stack_memory` makes `MinimizeStackMemory`
reflect the option.  The `minimize_stack_memory` case of the Go `switch`
(src/lua.go lines 110-113) validates that the option has no argument but
assigns nothing, so no parse ever changes the flag: parsing the block
`lua \x7b minimize_stack_memory \x7d` succeeds yet leaves the flag at its
zero value `false`. -/
theorem c2_theorem :
    (∀ (l : Lua) (lines : List (List String)),
      ((unmarshalLines l lines).1).MinimizeStackMemory =
        l.MinimizeStackMemory) ∧
    unmarshalCaddyfile luaZero [["minimize_stack_memory"]] =
      (luaZero, none) ∧
    luaZero.MinimizeStackMemory = false :=
  ⟨fun l lines => unmarshalLines_keeps_flag lines l, by decide, rfl⟩

/-- C3: ServeHTTP reads only `HandlerPath`; two handler values agreeing on
`HandlerPath` produce identical traces and results on every request,
whatever their five tuning fields hold (`lua.NewState()` at src/lua.go
line 57 receives no options). -/
theorem c3_theorem (l₁ l₂ : Lua) (id : Nat)
    (doFile : String → Option String) (nextRes : Option String)
    (h : l₁.HandlerPath = l₂.HandlerPath) :
    serveHTTP l₁ id doFile nextRes = serveHTTP l₂ id doFile nextRes := by
  simp only [serveHTTP, h]

/-- C3 witness: two handlers sharing a path but differing in all five
tuning fields behave identically. -/
theorem c3_witness :
    luaTunedA.HandlerPath = luaTunedB.HandlerPath ∧
    serveHTTP luaTunedA 0 (fun _ => none) none =
      serveHTTP luaTunedB 0 (fun _ => none) none :=
  ⟨rfl, c3_theorem luaTunedA luaTunedB 0 (fun _ => none) none rfl⟩

/-- C4: `Validate` (src/lua.go lines 48-53) errors exactly when
`HandlerPath` is the empty string; since a config that never mentions
`handler_path` leaves the field at its zero value `""`, omitting the
option makes validation fail, and any non-empty path passes. -/
theorem c4_theorem :
    (∀ l : Lua, validate l ≠ none ↔ l.HandlerPath = "") ∧
    (∀ lines : List (List String), (∀ ln ∈ lines, "handler_path" ∉ ln) →
      validate (parseCaddyfile lines).1 ≠ none) := by
  constructor
  · intro l
    by_cases hp : l.HandlerPath = "" <;> simp [validate, hp]
  · intro lines h
    have hpath : ((unmarshalLines luaZero lines).1).HandlerPath = "" := by
      rw [unmarshalLines_keeps_path lines luaZero h]
      rfl
    simp only [parseCaddyfile, unmarshalCaddyfile]
    simp [validate, hpath]

/-- C4 witness: the theorem applied to a config with no `handler_path`
line. -/
theorem c4_witness :
    validate (parseCaddyfile [["call_stack_size", "10"]]).1 ≠ none :=
  c4_theorem.2 [["call_stack_size", "10"]] (by decide)

/-- C5: when the dispatch loop reaches a keyword outside the six
recognized options, `UnmarshalCaddyfile` returns the error
`keyword: unknown configuration option` (src/lua.go lines 120-121)
immediately: the result does not depend on the remaining tokens of the
line nor on the remaining lines, which are never processed. -/
theorem c5_theorem (l : Lua) (field : String) (args : List String)
    (rest : List (List String)) (h : field ∉ recognizedKeywords) :
    processLine l (field :: args) =
      (l, some (field ++ ": unknown configuration option")) ∧
    unmarshalLines l ((field :: args) :: rest) =
      (l, some (field ++ ": unknown configuration option")) := by
  simp only [recognizedKeywords, List.mem_cons, List.not_mem_nil] at h
  push_neg at h
  obtain ⟨h1, h2, h3, h4, h5, h6, -⟩ := h
  have hp : processLine l (field :: args) =
      (l, some (field ++ ": unknown configuration option")) := by
    unfold processLine
    split <;> simp_all
  exact ⟨hp, by rw [unmarshalLines, hp]⟩

/-- C5 witness: the theorem applied to an unrecognized keyword followed by
further tokens and lines, which stay unprocessed. -/
theorem c5_witness :
    processLine luaZero ["bogus", "1"] =
      (luaZero, some ("bogus" ++ ": unknown configuration option")) ∧
    unmarshalLines luaZero (["bogus", "1"] :: [["handler_path", "x"]]) =
      (luaZero, some ("bogus" ++ ": unknown configuration option")) :=
  c5_theorem luaZero "bogus" ["1"] [["handler_path", "x"]] (by decide)

/-- C6: when `L.DoFile` fails, ServeHTTP returns that error as the
request-handling error (src/lua.go lines 59-61); the script is executed
exactly once (no retry) and the next handler is not reached. -/
theorem c6_theorem (l : Lua) (id : Nat) (doFile : String → Option String)
    (nextRes : Option String) (e : String)
    (h : doFile l.HandlerPath = some e) :
    (serveHTTP l id doFile nextRes).2 = some e ∧
    ((serveHTTP l id doFile nextRes).1.countP Ev.isDoFile) = 1 ∧
    Ev.nextCall ∉ (serveHTTP l id doFile nextRes).1 := by
  simp [serveHTTP, h, List.countP_cons, Ev.isDoFile]

/-- C6 witness: the theorem applied to a concrete failing script. -/
theorem c6_witness :
    (serveHTTP { luaZero with HandlerPath := "broken.lua" } 0
      (fun _ => some "syntax error") (some "nextval")).2 =
        some "syntax error" ∧
    ((serveHTTP { luaZero with HandlerPath := "broken.lua" } 0
      (fun _ => some "syntax error") (some "nextval")).1.countP
        Ev.isDoFile) = 1 ∧
    Ev.nextCall ∉ (serveHTTP { luaZero with HandlerPath := "broken.lua" } 0
      (fun _ => some "syntax error") (some "nextval")).1 :=
  c6_theorem { luaZero with HandlerPath := "broken.lua" } 0
    (fun _ => some "syntax error") (some "nextval") "syntax error" rfl

/-- C7: when the script loads and executes without error, ServeHTTP
invokes the next handler in the chain and returns that handler's result
(src/lua.go line 62). -/
theorem c7_theorem (l : Lua) (id : Nat) (doFile : String → Option String)
    (nextRes : Option String) (h : doFile l.HandlerPath = none) :
    Ev.nextCall ∈ (serveHTTP l id doFile nextRes).1 ∧
    (serveHTTP l id doFile nextRes).2 = nextRes := by
  simp [serveHTTP, h]

/-- C7 witness: the theorem applied to a concrete working script. -/
theorem c7_witness :
    Ev.nextCall ∈ (serveHTTP { luaZero with HandlerPath := "ok.lua" } 0
      (fun _ => none) (some "downstream")).1 ∧
    (serveHTTP { luaZero with HandlerPath := "ok.lua" } 0
      (fun _ => none) (some "downstream")).2 = some "downstream" :=
  c7_theorem { luaZero with HandlerPath := "ok.lua" } 0
    (fun _ => none) (some "downstream") rfl

/-- C8: for each of the four integer options, a missing value, more than
one value, or a value that `strconv.ParseInt` rejects makes
`UnmarshalCaddyfile` return an error whose message starts with the option
name followed by a colon (src/lua.go lines 67-77 and 82-108). -/
theorem c8_theorem (l : Lua) (field : String) (args : List String)
    (rest : List (List String))
    (hf : field ∈ ["call_stack_size", "registry_size", "registry_max_size",
      "registry_grow_step"])
    (hbad : args.length ≠ 1 ∨
      ∃ s e, args = [s] ∧ goParseInt64 s = Except.error e) :
    ∃ msg, unmarshalLines l ((field :: args) :: rest) =
      (l, some (field ++ ": " ++ msg)) := by
  have herr : ∃ e, asInt field args = Except.error e := by
    rcases hbad with hlen | ⟨s, e, rfl, hp⟩
    · match args with
      | [] => exact ⟨argErrMsg field, rfl⟩
      | [s] => simp at hlen
      | a :: b :: t => exact ⟨argErrMsg a, rfl⟩
    · exact ⟨e, by simp [asInt, hp]⟩
  rcases herr with ⟨e, he⟩
  simp only [List.mem_cons, List.mem_singleton, List.not_mem_nil,
    or_false] at hf
  rcases hf with rfl | rfl | rfl | rfl <;>
    exact ⟨e, by rw [unmarshalLines, processLine, he]⟩

/-- C8 witness: the theorem applied to a non-numeric `registry_size`
value. -/
theorem c8_witness :
    ∃ msg, unmarshalLines luaZero [["registry_size", "zz"]] =
      (luaZero, some ("registry_size" ++ ": " ++ msg)) :=
  c8_theorem luaZero "registry_size" ["zz"] [] (by decide)
    (Or.inr ⟨"zz", parseIntSyntaxError "zz", rfl, rfl⟩)

/-- C9: each request's trace opens by constructing its own interpreter
state and closes it as the last action before returning (the deferred
`L.Close()`, src/lua.go lines 57-58), on the error path and the success
path alike; two requests with distinct fresh interpreter identifiers touch
disjoint interpreter state. -/
theorem c9_theorem (l₁ l₂ : Lua) (id₁ id₂ : Nat)
    (df₁ df₂ : String → Option String) (nr₁ nr₂ : Option String)
    (h : id₁ ≠ id₂) :
    ((serveHTTP l₁ id₁ df₁ nr₁).1.head? = some (Ev.newState id₁) ∧
     (serveHTTP l₁ id₁ df₁ nr₁).1.getLast? = some (Ev.close id₁)) ∧
    ((serveHTTP l₂ id₂ df₂ nr₂).1.head? = some (Ev.newState id₂) ∧
     (serveHTTP l₂ id₂ df₂ nr₂).1.getLast? = some (Ev.close id₂)) ∧
    ∀ i : Nat,
      (∃ ev ∈ (serveHTTP l₁ id₁ df₁ nr₁).1, ev.stateId = some i) →
      (∃ ev ∈ (serveHTTP l₂ id₂ df₂ nr₂).1, ev.stateId = some i) → False := by
  obtain ⟨hh₁, hl₁, hm₁⟩ := serveHTTP_trace_ids l₁ id₁ df₁ nr₁
  obtain ⟨hh₂, hl₂, hm₂⟩ := serveHTTP_trace_ids l₂ id₂ df₂ nr₂
  refine ⟨⟨hh₁, hl₁⟩, ⟨hh₂, hl₂⟩, ?_⟩
  rintro i ⟨ev₁, hev₁, hid₁⟩ ⟨ev₂, hev₂, hid₂⟩
  rcases hm₁ ev₁ hev₁ with hnone | hsome
  · rw [hnone] at hid₁; cases hid₁
  · rcases hm₂ ev₂ hev₂ with hnone | hsome₂
    · rw [hnone] at hid₂; cases hid₂
    · rw [hid₁] at hsome
      rw [hid₂] at hsome₂
      cases hsome
      cases hsome₂
      exact h rfl

/-- C9 witness: the theorem applied to two concrete requests with
distinct interpreter identifiers. -/
theorem c9_witness :
    ((serveHTTP { luaZero with HandlerPath := "p.lua" } 0
        (fun _ => some "err") none).1.head? = some (Ev.newState 0) ∧
     (serveHTTP { luaZero with HandlerPath := "p.lua" } 0
        (fun _ => some "err") none).1.getLast? = some (Ev.close 0)) ∧
    ((serveHTTP { luaZero with HandlerPath := "p.lua" } 1
        (fun _ => none) none).1.head? = some (Ev.newState 1) ∧
     (serveHTTP { luaZero with HandlerPath := "p.lua" } 1
        (fun _ => none) none).1.getLast? = some (Ev.close 1)) ∧
    ∀ i : Nat,
      (∃ ev ∈ (serveHTTP { luaZero with HandlerPath := "p.lua" } 0
        (fun _ => some "err") none).1, ev.stateId = some i) →
      (∃ ev ∈ (serveHTTP { luaZero with HandlerPath := "p.lua" } 1
        (fun _ => none) none).1, ev.stateId = some i) → False :=
  c9_theorem { luaZero with HandlerPath := "p.lua" }
    { luaZero with HandlerPath := "p.lua" } 0 1
    (fun _ => some "err") (fun _ => none) none none (by decide)

/-- C10: `UnmarshalCaddyfile` is not atomic on error — after a prefix of
the block has parsed cleanly into some struct, a failure in the remaining
lines returns the struct accumulated from that prefix onward, and
`parseCaddyfile` (src/lua.go lines 129-133) hands back this partially
populated handler value together with the non-nil error. -/
theorem c10_theorem (lines₁ lines₂ : List (List String)) (l₁ l₂ : Lua)
    (e : String)
    (h₁ : unmarshalCaddyfile luaZero lines₁ = (l₁, none))
    (h₂ : unmarshalLines l₁ lines₂ = (l₂, some e)) :
    parseCaddyfile (lines₁ ++ lines₂) = (l₂, some e) := by
  simp only [parseCaddyfile, unmarshalCaddyfile] at h₁ ⊢
  rw [unmarshalLines_append lines₁ luaZero l₁ lines₂ h₁, h₂]

/-- C10 witness: `call_stack_size 7` parses, the next line fails on an
unknown keyword, and parseCaddyfile returns the struct with
`CallStackSize = 7` kept, alongside the error. -/
theorem c10_witness :
    parseCaddyfile ([["call_stack_size", "7"]] ++ [["bogus"]]) =
      ({ luaZero with CallStackSize := 7 },
       some "bogus: unknown configuration option") :=
  c10_theorem [["call_stack_size", "7"]] [["bogus"]]
    { luaZero with CallStackSize := 7 } { luaZero with CallStackSize := 7 }
    "bogus: unknown configuration option" (by decide) (by decide)

end CaddyLua
